import Mathlib

/-
Verification of the batstat battery/charger telemetry pipeline.

The development shallowly embeds the pure core of the three Python sources
(`src/batstat.py`, `src/bat.py`, `src/src/batstat/batstat.py`): the dynamic
scalar values flowing through the adapter bags, the numeric coercions, the
ioreg enrichment pass, the pmset line parser, the packaged-variant
percentage/temperature calculators and the status classifiers.  Functions
that capture process output are external collaborators; their already-parsed
results are taken as arguments.  Python floats are modelled by exact
rationals; `round(x, 1)` is modelled as round-half-to-even on rationals, and
the one float literal the arithmetic depends on (273.15) is embedded as the
exact value of its IEEE-754 binary64 representation.
-/

set_option maxRecDepth 4000

namespace Batstat

/-- Dynamic scalar value as handled by the Python adapters: bag entries and
record fields hold strings, ints, floats (modelled as rationals) or booleans;
Python `None` is modelled by `Option.none` one level up. -/
inductive PyVal where
  | int (n : ℤ)
  | float (q : ℚ)
  | str (s : String)
  | bool (b : Bool)
  deriving DecidableEq, Repr

/-- Python truthiness of a scalar (`bool(v)`): zero numbers and the empty
string are falsy, everything else is truthy. -/
def pyTruthy : PyVal → Bool
  | .int n => n ≠ 0
  | .float q => q ≠ 0
  | .str s => s ≠ ""
  | .bool b => b

/-- Truthiness of an optional value: Python `None` is falsy. -/
def pyTruthyOpt : Option PyVal → Bool
  | none => false
  | some v => pyTruthy v

/-- Python `a or b` on optional values, as used in the source through
`dict.get(k1) or dict.get(k2)`: yields `a` when `a` is truthy, else `b`. -/
def pyOr (a b : Option PyVal) : Option PyVal :=
  if pyTruthyOpt a then a else b

/-- Whitespace characters stripped by Python `int(str)` conversion. -/
def isPySpace (c : Char) : Bool :=
  c = ' ' || c = '\t' || c = '\n' || c = '\x0d' || c = '\x0b' || c = '\x0c'

/-- Tail of a Python integer-literal digit body: digits with single
underscores allowed only between digits. -/
def digitsTail : List Char → Bool
  | [] => true
  | '_' :: c :: rest => c.isDigit && digitsTail rest
  | ['_'] => false
  | c :: rest => c.isDigit && digitsTail rest

/-- Body of a Python integer literal: one or more ASCII digits, with single
underscore separators permitted between digits. -/
def digitsBody : List Char → Bool
  | [] => false
  | c :: rest => c.isDigit && digitsTail rest

/-- Numeric value of a digit body, skipping underscore separators. -/
def digitsVal (l : List Char) : ℕ :=
  l.foldl (fun acc c => if c = '_' then acc else 10 * acc + (c.toNat - 48)) 0

/-- Python `int(s)` on a string: strip whitespace, optional sign, then a
digit body; any other shape raises `ValueError`, modelled as `none`. -/
def pyIntOfString (s : String) : Option ℤ :=
  let t := ((s.toList.dropWhile isPySpace).reverse.dropWhile isPySpace).reverse
  match t with
  | '+' :: rest => if digitsBody rest then some (digitsVal rest : ℤ) else none
  | '-' :: rest => if digitsBody rest then some (-(digitsVal rest : ℤ)) else none
  | rest => if digitsBody rest then some (digitsVal rest : ℤ) else none

/-- Source `to_int`: Python `int(v)` with `TypeError` / `ValueError` mapped to
`None`.  Booleans are `int` subclasses in Python; floats truncate toward
zero. -/
def to_int : Option PyVal → Option ℤ
  | none => none
  | some (.int n) => some n
  | some (.bool b) => some (if b then 1 else 0)
  | some (.float q) => some (if 0 ≤ q then ⌊q⌋ else -⌊-q⌋)
  | some (.str s) => pyIntOfString s

/-- Source `to_int_signed_64`: reinterpret an unsigned 64-bit register value
as signed by two's-complement correction; a failed coercion stays `None`. -/
def to_int_signed_64 (v : Option PyVal) : Option ℤ :=
  match to_int v with
  | none => none
  | some val => if val ≥ 2 ^ 63 then some (val - 2 ^ 64) else some val

/-- Round a rational to the nearest integer with ties going to the even
neighbour, which is the rounding mode of Python `round`. -/
def roundHalfEven (q : ℚ) : ℤ :=
  let f := ⌊q⌋
  let r := q - f
  if r < 1 / 2 then f
  else if 1 / 2 < r then f + 1
  else if f % 2 = 0 then f else f + 1

/-- Python `round(x, 1)` under exact rational arithmetic. -/
def pyRound1 (q : ℚ) : ℚ := (roundHalfEven (10 * q) : ℚ) / 10

/-- The exact value of the IEEE-754 binary64 datum denoted by the Python
float literal `273.15` appearing in the temperature conversion. -/
def float273_15 : ℚ := 2402652809016115 / 8796093022208

/-- Association-list model of a Python dict from string keys to nullable
scalar values (a stored `none` models a key bound to Python `None`). -/
abbrev Bag := List (String × Option PyVal)

/-- Python `dict.get(key)`: `None` both for a missing key and for a key bound
to `None`, which is exactly how every use in the source treats the two. -/
def dictGet : Bag → String → Option PyVal
  | [], _ => none
  | (k, v) :: rest, key => if k = key then v else dictGet rest key

/-- The canonical record accumulated by `extract_battery_and_charger` and
mutated in place by `enrich_with_ioreg`; every field is nullable. -/
structure Detail where
  current_capacity : Option PyVal
  max_capacity : Option PyVal
  design_capacity : Option PyVal
  fully_charged : Option PyVal
  is_charging : Option PyVal
  cycle_count : Option PyVal
  health : Option PyVal
  health_pct : Option PyVal
  battery_serial : Option PyVal
  voltage_mV : Option PyVal
  amperage_mA : Option PyVal
  temperature_c : Option PyVal
  manufacture_date : Option PyVal
  charging_watts : Option PyVal
  charger_name : Option PyVal
  charger_watts : Option PyVal
  charger_manufacturer : Option PyVal
  charger_serial : Option PyVal
  charger_connected : Option PyVal
  charger_is_charging : Option PyVal
  deriving DecidableEq, Repr

/-- The all-`None` record, as initialised by `extract_battery_and_charger`
before any source contributes. -/
def Detail.blank : Detail where
  current_capacity := none
  max_capacity := none
  design_capacity := none
  fully_charged := none
  is_charging := none
  cycle_count := none
  health := none
  health_pct := none
  battery_serial := none
  voltage_mV := none
  amperage_mA := none
  temperature_c := none
  manufacture_date := none
  charging_watts := none
  charger_name := none
  charger_watts := none
  charger_manufacturer := none
  charger_serial := none
  charger_connected := none
  charger_is_charging := none

/-- Source `set_if_absent`, the merge helper nested in `enrich_with_ioreg`,
with the source's branch structure kept: a `None` candidate is skipped, and
BOTH remaining branches perform the same assignment, so a present value is
overwritten despite the helper's name. -/
def set_if_absent (cur value : Option PyVal) : Option PyVal :=
  match value with
  | none => cur
  | some v =>
    match cur with
    | none => some v
    | some _ => some v

/-- Year of `datetime.date.today()` at verification time, used by the
manufacture-date plausibility window. -/
def todayYear : ℕ := 2026

/-- Gregorian leap-year rule used by `datetime.date`. -/
def isLeapYear (y : ℕ) : Bool :=
  y % 4 = 0 && (y % 100 ≠ 0 || y % 400 = 0)

/-- Length of a month in the proleptic Gregorian calendar. -/
def daysInMonth (y m : ℕ) : ℕ :=
  if m = 2 then (if isLeapYear y then 29 else 28)
  else if m = 4 ∨ m = 6 ∨ m = 9 ∨ m = 11 then 30
  else 31

/-- Whether `datetime.date(y, m, d)` constructs without `ValueError`
(the year range is separately guarded by the caller). -/
def validDate (y m d : ℕ) : Bool :=
  decide (1 ≤ m) && decide (m ≤ 12) && decide (1 ≤ d) && decide (d ≤ daysInMonth y m)

/-- Fuel-driven halving count: `bitLenAux fuel n` is the number of times `n`
can be halved before reaching zero, provided `fuel` bounds that count. -/
def bitLenAux : ℕ → ℕ → ℕ
  | 0, _ => 0
  | _ + 1, 0 => 0
  | fuel + 1, n + 1 => bitLenAux fuel ((n + 1) / 2) + 1

/-- Bit length of a natural number (`int.bit_length`); `n` itself always
suffices as fuel since `bit_length n ≤ n` for positive `n`. -/
def bitLength (n : ℕ) : ℕ := bitLenAux n n

/-- Big-endian base-256 digits of `n`, padded or truncated to `len` bytes
from the low end, mirroring `int.to_bytes(len, "big")` for values that fit. -/
def bytesBEAux : ℕ → ℕ → List ℕ
  | 0, _ => []
  | len + 1, n => bytesBEAux len (n / 256) ++ [n % 256]

/-- Minimal big-endian byte sequence of a natural number:
`val.to_bytes(max(1, (val.bit_length() + 7) // 8), "big")`. -/
def toBytesBE (val : ℕ) : List ℕ :=
  bytesBEAux (max 1 ((bitLength val + 7) / 8)) val

/-- Whether a byte value is an ASCII digit (`48 <= x <= 57`). -/
def isDigitByte (x : ℕ) : Bool := decide (48 ≤ x) && decide (x ≤ 57)

/-- Two-digit decimal number denoted by two ASCII-digit byte values. -/
def twoDigits (a b : ℕ) : ℕ := (a - 48) * 10 + (b - 48)

/-- Zero-padded two-digit rendering used by `date.isoformat`. -/
def pad2 (n : ℕ) : String := if n < 10 then "0" ++ toString n else toString n

/-- `date(y, m, d).isoformat()` for four-digit years. -/
def isoDate (y m d : ℕ) : String :=
  toString y ++ "-" ++ pad2 m ++ "-" ++ pad2 d

/-- One turn of the candidate loop in `_decode_manufacture_date`: interpret a
6-byte digit string as YYMMDD with year `2000 + YY`, keeping it only when the
year lies in `2000 ..= today` and the calendar date is valid. -/
def tryCandidate (cand : List ℕ) : Option String :=
  match cand with
  | [c0, c1, c2, c3, c4, c5] =>
    let yy := twoDigits c0 c1
    let mm := twoDigits c2 c3
    let dd := twoDigits c4 c5
    let year := 2000 + yy
    if 2000 ≤ year ∧ year ≤ todayYear then
      if validDate year mm dd then some (isoDate year mm dd) else none
    else none
  | _ => none

/-- Source `_decode_manufacture_date`: coerce to an integer, take the minimal
big-endian byte form, require every byte to be an ASCII digit and, for
6-character strings, try the string and its reversal as YYMMDD, returning the
first plausible calendar date. -/
def decode_manufacture_date (raw : PyVal) : Option String :=
  match to_int (some raw) with
  | none => none
  | some val =>
    if val < 0 then none
    else
      let b := toBytesBE val.toNat
      if b.all isDigitByte then
        if b.length = 6 then
          match tryCandidate b with
          | some d => some d
          | none => tryCandidate b.reverse
        else none
      else none

/-- Source `enrich_with_ioreg`, as a function of the already-parsed ioreg bag
(the capture and line-level parse are external collaborators; an empty bag is
what a failed capture produces).  The source mutates the record dict key by
key through `set_if_absent`; every key is assigned at most once, so the
updated record is assembled here in one constructor from per-key values
computed in source statement order.  The single read of an already-updated
key — the charging-wattage guard reads the two charger flags after their
`set_if_absent` assignments — is reflected by guarding on the updated flag
values `cic` and `cc`. -/
def enrich_with_ioreg (detail : Detail) (io : Bag) : Detail :=
  if io.isEmpty then detail
  else
    let design := to_int (dictGet io "DesignCapacity")
    let max_cap := to_int (pyOr (dictGet io "AppleRawMaxCapacity") (dictGet io "MaxCapacity"))
    let cur_cap := to_int (pyOr (dictGet io "AppleRawCurrentCapacity") (dictGet io "CurrentCapacity"))
    let cycles := to_int (dictGet io "CycleCount")
    let voltage := to_int (pyOr (dictGet io "Voltage") (dictGet io "AppleRawBatteryVoltage"))
    let amperage := to_int_signed_64 (pyOr (dictGet io "Amperage") (dictGet io "InstantAmperage"))
    let cic := set_if_absent detail.charger_is_charging (dictGet io "IsCharging")
    let cc := set_if_absent detail.charger_connected (dictGet io "ExternalConnected")
    let charging_watts :=
      match voltage, amperage with
      | some v, some a =>
        if 0 < a ∧ (pyTruthyOpt cic = true ∨ pyTruthyOpt cc = true) then
          set_if_absent detail.charging_watts
            (some (.float (pyRound1 ((v : ℚ) * (a : ℚ) / 1000000))))
        else detail.charging_watts
      | _, _ => detail.charging_watts
    let temp_raw := pyOr (dictGet io "Temperature") (dictGet io "VirtualTemperature")
    let temperature_c :=
      match temp_raw with
      | some (.int t) =>
        set_if_absent detail.temperature_c (some (.float (pyRound1 ((t : ℚ) / 10 - float273_15))))
      | some (.float q) =>
        set_if_absent detail.temperature_c (some (.float (pyRound1 (q / 10 - float273_15))))
      | some (.bool b) =>
        set_if_absent detail.temperature_c
          (some (.float (pyRound1 ((if b then (1 : ℚ) else 0) / 10 - float273_15))))
      | _ => detail.temperature_c
    let health_pct :=
      match max_cap, design with
      | some mc, some dc =>
        if mc ≠ 0 ∧ dc ≠ 0 then
          set_if_absent detail.health_pct (some (.float (pyRound1 ((mc : ℚ) / (dc : ℚ) * 100))))
        else detail.health_pct
      | _, _ => detail.health_pct
    let manuf_raw := dictGet io "ManufactureDateRaw"
    let manuf_date :=
      if pyTruthyOpt manuf_raw then
        match manuf_raw with
        | some v => decode_manufacture_date v
        | none => none
      else none
    let manufacture_date :=
      match manuf_date with
      | some ds =>
        if ds = "" then detail.manufacture_date
        else set_if_absent detail.manufacture_date (some (.str ds))
      | none => detail.manufacture_date
    { detail with
      design_capacity := set_if_absent detail.design_capacity (design.map PyVal.int)
      max_capacity := set_if_absent detail.max_capacity (max_cap.map PyVal.int)
      current_capacity := set_if_absent detail.current_capacity (cur_cap.map PyVal.int)
      cycle_count := set_if_absent detail.cycle_count (cycles.map PyVal.int)
      voltage_mV := set_if_absent detail.voltage_mV (voltage.map PyVal.int)
      amperage_mA := set_if_absent detail.amperage_mA (amperage.map PyVal.int)
      charger_is_charging := cic
      charger_connected := cc
      charging_watts := charging_watts
      temperature_c := temperature_c
      charger_watts := set_if_absent detail.charger_watts ((to_int (dictGet io "AdapterWatts")).map PyVal.int)
      health_pct := health_pct
      manufacture_date := manufacture_date }

/-- Regular-expression fragment covering exactly the constructs the pmset
parser uses: literal runs, greedy star and plus over a one-character class,
concatenation, and a single capturing group. -/
inductive RE where
  | lit (cs : List Char)
  | starC (p : Char → Bool)
  | plusC (p : Char → Bool)
  | seq (a b : RE)
  | group (a : RE)

/-- Literal-run match test (each pattern character equals the next input
character). -/
def litMatches : List Char → List Char → Bool
  | [], _ => true
  | _ :: _, [] => false
  | c :: cs, d :: ds => c = d && litMatches cs ds

/-- All ways `re` can match a prefix of `s`, listed as
(captured group, remaining suffix) in the backtracking priority order of the
Python `re` engine on this fragment: greedy repetitions yield their longest
alternative first, and concatenation explores the left factor's alternatives
outermost. -/
def outcomes : RE → List Char → List (Option (List Char) × List Char)
  | .lit cs, s => if litMatches cs s then [(none, s.drop cs.length)] else []
  | .starC p, s =>
    let t := (s.takeWhile p).length
    (List.range (t + 1)).map (fun i => (none, s.drop (t - i)))
  | .plusC p, s =>
    let t := (s.takeWhile p).length
    (List.range t).map (fun i => (none, s.drop (t - i)))
  | .seq a b, s =>
    ((outcomes a s).map (fun pr =>
      (outcomes b pr.2).map (fun pr2 => (pr.1 <|> pr2.1, pr2.2)))).flatten
  | .group a, s =>
    (outcomes a s).map (fun pr => (some (s.take (s.length - pr.2.length)), pr.2))

/-- `re.search` over the fragment: attempt a match at each start position from
the left, returning the group-1 capture of the first successful match. -/
def searchFrom (re : RE) : List Char → Option (Option (List Char))
  | [] =>
    match outcomes re [] with
    | [] => none
    | pr :: _ => some pr.1
  | c :: rest =>
    match outcomes re (c :: rest) with
    | pr :: _ => some pr.1
    | [] => searchFrom re rest

/-- Group-1 capture of a `re.search` (`none` when the pattern does not match
anywhere on the line). -/
def searchGroup (re : RE) (s : List Char) : Option (List Char) :=
  match searchFrom re s with
  | some (some g) => some g
  | _ => none

/-- Character class `\s` restricted to the ASCII whitespace the inputs use. -/
def isSpaceC (c : Char) : Bool :=
  c = ' ' || c = '\t' || c = '\n' || c = '\x0d' || c = '\x0b' || c = '\x0c'

/-- Character class `[^;]`. -/
def notSemi (c : Char) : Bool := c != ';'

/-- Pattern `Now drawing from '([^']+)'` from `parse_pmset`. -/
def reSource : RE :=
  .seq (.lit "Now drawing from '".data)
    (.seq (.group (.plusC (fun c => c != '\''))) (.lit ['\'']))

/-- Pattern `(\d+)%` from `parse_pmset`. -/
def rePercent : RE :=
  .seq (.group (.plusC Char.isDigit)) (.lit ['%'])

/-- Pattern `\d+%\s*;\s*([^;]+);` from `parse_pmset`. -/
def reStatus : RE :=
  .seq (.plusC Char.isDigit)
    (.seq (.lit ['%'])
      (.seq (.starC isSpaceC)
        (.seq (.lit [';'])
          (.seq (.starC isSpaceC)
            (.seq (.group (.plusC notSemi)) (.lit [';']))))))

/-- Pattern `;\s*([^;]*remaining[^;]*)` from `parse_pmset`. -/
def reTime : RE :=
  .seq (.lit [';'])
    (.seq (.starC isSpaceC)
      (.group (.seq (.starC notSemi) (.seq (.lit "remaining".data) (.starC notSemi)))))

/-- Python `str.strip()` for the ASCII whitespace occurring here. -/
def pyStrip (l : List Char) : List Char :=
  ((l.dropWhile isSpaceC).reverse.dropWhile isSpaceC).reverse

/-- Split a character list at LF characters. -/
def splitAtLF : List Char → List (List Char)
  | [] => [[]]
  | '\n' :: rest => [] :: splitAtLF rest
  | c :: rest =>
    match splitAtLF rest with
    | l :: ls => (c :: l) :: ls
    | [] => [[c]]

/-- Python `str.splitlines()` for LF-separated text: like splitting at LF but
without a trailing empty line. -/
def splitlines (s : List Char) : List (List Char) :=
  let parts := splitAtLF s
  match parts.getLast? with
  | some [] => parts.dropLast
  | _ => parts

/-- The loosely typed result dict of `parse_pmset`. -/
structure PmsetInfo where
  raw : Option String
  source : Option String
  percent : Option String
  status : Option String
  time_remaining : Option String
  deriving DecidableEq, Repr

/-- Source `parse_pmset`, as a function of the captured `pmset -g batt`
output (`none` models a failed capture; each regex miss leaves its field
`None`). -/
def parse_pmset (out : Option String) : PmsetInfo :=
  let base : PmsetInfo :=
    { raw := out, source := none, percent := none, status := none, time_remaining := none }
  match out with
  | none => base
  | some text =>
    if text = "" then base
    else
      let lines := splitlines text.data
      let src :=
        match lines with
        | l0 :: _ => (searchGroup reSource l0).map String.mk
        | [] => none
      match lines with
      | _ :: line :: _ =>
        { raw := out
          source := src
          percent := (searchGroup rePercent line).map String.mk
          status := (searchGroup reStatus line).map (fun g => String.mk (pyStrip g))
          time_remaining := (searchGroup reTime line).map (fun g => String.mk (pyStrip g)) }
      | _ => { base with source := src }

/-- Source `_first_present`: the value of the first alias present in the bag
with a non-null value (`key in data and data[key] is not None`, which is
exactly a lookup yielding a non-null value in this model). -/
def first_present : Bag → List String → Option PyVal
  | _, [] => none
  | data, key :: rest =>
    match dictGet data key with
    | some v => some v
    | none => first_present data rest

/-- Source `_to_bool`: normalise a scalar to a tri-state boolean.  Booleans
pass through, ints accept only 0/1, anything else goes through
`str(value).strip().lower()` membership in the true/false token sets (which
no float rendering ever hits). -/
def to_bool : Option PyVal → Option Bool
  | none => none
  | some (.bool b) => some b
  | some (.int n) => if n = 0 then some false else if n = 1 then some true else none
  | some (.str s) =>
    let t := (String.mk (pyStrip s.data)).toLower
    if t = "true" ∨ t = "yes" ∨ t = "1" then some true
    else if t = "false" ∨ t = "no" ∨ t = "0" then some false
    else none
  | some (.float _) => none

/-- The three tri-state charging flags computed by source `build_ios_views`
from the device-diagnostic bag. -/
def ios_fully_charged (data : Bag) : Option Bool :=
  to_bool (first_present data ["BatteryIsFullyCharged", "FullyCharged"])

/-- The is-charging tri-state flag of `build_ios_views`. -/
def ios_is_charging (data : Bag) : Option Bool :=
  to_bool (first_present data ["BatteryIsCharging", "IsCharging", "Charging"])

/-- The external-power tri-state flag of `build_ios_views`. -/
def ios_external_connected (data : Bag) : Option Bool :=
  to_bool (first_present data ["ExternalConnected", "ExternalPowerConnected"])

/-- The status cascade of source `build_ios_views`: transcribes the
`status = "Unknown"` default and the `is True` / `is False` chain. -/
def ios_status_classify (fully_charged is_charging external_connected : Option Bool) : String :=
  if fully_charged = some true then "fully charged"
  else if is_charging = some true then "charging"
  else if is_charging = some false then "discharging"
  else if external_connected = some true then "connected"
  else "Unknown"

/-- The status string `build_ios_views` places in its summary view. -/
def ios_status (data : Bag) : String :=
  ios_status_classify (ios_fully_charged data) (ios_is_charging data) (ios_external_connected data)

/-- The regex-extracted metric dict of the packaged variant's `BatteryData`
(`src/src/batstat/batstat.py`): each field holds the captured group of its
pattern, or `None` on a pattern miss. -/
structure BatteryData where
  current_capacity : Option String
  max_capacity : Option String
  design_capacity : Option String
  cycle_count : Option String
  temperature : Option String
  voltage : Option String
  amperage : Option String
  is_charging : Option String
  external_connected : Option String
  fully_charged : Option String
  time_remaining : Option String
  deriving DecidableEq, Repr

/-- An all-miss `BatteryData`. -/
def BatteryData.blank : BatteryData where
  current_capacity := none
  max_capacity := none
  design_capacity := none
  cycle_count := none
  temperature := none
  voltage := none
  amperage := none
  is_charging := none
  external_connected := none
  fully_charged := none
  time_remaining := none

/-- Python `str.isdigit` restricted to ASCII, which is all the regex captures
can contain. -/
def pyIsDigit (s : String) : Bool :=
  !s.data.isEmpty && s.data.all Char.isDigit

/-- Source `BatteryData.get_int` with its default of 0:
`int(value) if value and value.isdigit() else default`. -/
def get_int (v : Option String) : ℤ :=
  match v with
  | some s => if s ≠ "" ∧ pyIsDigit s then (digitsVal s.data : ℤ) else 0
  | none => 0

/-- Source `BatteryData.get_float` with its default of 0.0:
`float(value) if value else default`.  The stored captures are all-digit
strings, so `float(value)` is their numeric value; other shapes would raise
in Python and cannot occur. -/
def get_float (v : Option String) : ℚ :=
  match v with
  | some s => if s ≠ "" then (digitsVal s.data : ℚ) else 0
  | none => 0

/-- Source `BatteryData.get_str` with its default of the empty string:
`self.data.get(key) or default`. -/
def get_str (v : Option String) : String :=
  match v with
  | some s => if s ≠ "" then s else ""
  | none => ""

/-- Source `calculate_battery_percentage` (packaged variant): 0.0 when the
maximum capacity is zero or missing, else `round(current * 100.0 / max, 1)`. -/
def calculate_battery_percentage (b : BatteryData) : ℚ :=
  let current := get_int b.current_capacity
  let max_cap := get_int b.max_capacity
  if max_cap = 0 then 0
  else pyRound1 ((current : ℚ) * 100 / (max_cap : ℚ))

/-- Source `get_battery_status` (packaged variant): is-charging is tested
first, and a full battery is reported only while external power is
connected. -/
def get_battery_status (b : BatteryData) : String × String :=
  let is_charging := get_str b.is_charging = "Yes"
  let external_connected := get_str b.external_connected = "Yes"
  let fully_charged := get_str b.fully_charged = "Yes"
  if is_charging then ("⚡", "Charging")
  else if external_connected ∧ fully_charged then ("🔌", "Fully Charged")
  else if external_connected then ("🔌", "Not Charging")
  else ("🔋", "Discharging")

/-- The Celsius temperature displayed by the packaged variant
(`display_simple_battery_info` and `display_battery_status`):
`get_float('temperature') / 100.0`, with no Kelvin offset. -/
def display_simple_temp_c (b : BatteryData) : ℚ :=
  get_float b.temperature / 100

/-! Helper lemmas about the merge helper. -/

theorem set_if_absent_none (cur : Option PyVal) : set_if_absent cur none = cur := rfl

theorem set_if_absent_some (cur : Option PyVal) (v : PyVal) :
    set_if_absent cur (some v) = some v := by
  cases cur <;> rfl

theorem isSome_le_set_if_absent (cur v : Option PyVal) :
    cur.isSome ≤ (set_if_absent cur v).isSome := by
  cases v with
  | none => exact le_refl _
  | some w => rw [set_if_absent_some]; exact Bool.le_true _

/-- C7: the signed-amperage correction maps every raw value `v ≥ 2^63` to
`v − 2^64`, leaves every `v < 2^63` unchanged, and propagates a failed
integer coercion as an absent result. -/
theorem c7_to_int_signed_64_spec :
    (∀ v : ℤ, 2 ^ 63 ≤ v → to_int_signed_64 (some (.int v)) = some (v - 2 ^ 64)) ∧
    (∀ v : ℤ, v < 2 ^ 63 → to_int_signed_64 (some (.int v)) = some v) ∧
    (∀ w : Option PyVal, to_int w = none → to_int_signed_64 w = none) := by
  refine ⟨fun v hv => ?_, fun v hv => ?_, fun w hw => ?_⟩
  · simp only [to_int_signed_64, to_int]
    rw [if_pos (by exact_mod_cast hv)]
  · simp only [to_int_signed_64, to_int]
    rw [if_neg (by exact_mod_cast not_le.mpr hv)]
  · simp [to_int_signed_64, hw]

/-- Closed instances of C7: the smallest wrapped value, a plain small value,
and a non-numeric string. -/
theorem c7_to_int_signed_64_spec_witness :
    to_int_signed_64 (some (.int (2 ^ 63))) = some (2 ^ 63 - 2 ^ 64) ∧
    to_int_signed_64 (some (.int 500)) = some 500 ∧
    to_int_signed_64 (some (.str "n/a")) = none :=
  ⟨c7_to_int_signed_64_spec.1 (2 ^ 63) (le_refl _),
   c7_to_int_signed_64_spec.2.1 500 (by decide),
   c7_to_int_signed_64_spec.2.2 (some (.str "n/a")) (by decide)⟩

/-- C9: field extraction returns the value of the first alias present in the
bag with a non-null value and ignores all later aliases; when no alias is
present with a non-null value the result is absent.  This is exactly
`List.findSome?` of the lookup over the alias list. -/
theorem c9_first_present_spec (data : Bag) (keys : List String) :
    first_present data keys = keys.findSome? (fun k => dictGet data k) := by
  induction keys with
  | nil => rfl
  | cons k ks ih =>
    simp only [first_present, List.findSome?]
    cases dictGet data k <;> simp [ih]

/-- C6: manufacture-date decoding over the minimal big-endian byte form:
a byte outside the ASCII digit range yields no date; the packing of
"210315" (= 55186843447605) decodes to 2021-03-15, and the reversed packing
"513012" (= 58485428465970) decodes to the same date via the reversed
candidate. -/
theorem c6_manufacture_date_decode :
    (∀ n : ℕ, (toBytesBE n).all isDigitByte = false →
      decode_manufacture_date (.int (n : ℤ)) = none) ∧
    toBytesBE 55186843447605 = [50, 49, 48, 51, 49, 53] ∧
    decode_manufacture_date (.str "55186843447605") = some "2021-03-15" ∧
    toBytesBE 58485428465970 = [53, 49, 51, 48, 49, 50] ∧
    decode_manufacture_date (.str "58485428465970") = some "2021-03-15" := by
  refine ⟨fun n h => ?_, by decide, by decide, by decide, by decide⟩
  simp only [decode_manufacture_date, to_int]
  rw [if_neg (not_lt.mpr (Int.natCast_nonneg n))]
  simp [Int.toNat_natCast, h]

/-- Closed instance of the quantified part of C6: the single byte 0xFF is not
an ASCII digit, so 255 produces no decoded date. -/
theorem c6_manufacture_date_decode_witness :
    decode_manufacture_date (.int (255 : ℤ)) = none :=
  c6_manufacture_date_decode.1 255 (by decide)

/-- C1: reconciliation is claimed to be fill-if-absent, but the merge helper
assigns in both of its branches, so the lower-priority ioreg value replaces a
value the structured report already supplied: with cycle_count 150 already
present and an ioreg bag carrying CycleCount 142, the enriched record holds
142, not the claimed 150. -/
theorem c1_fill_if_absent_failing_input :
    (enrich_with_ioreg { Detail.blank with cycle_count := some (.int 150) }
        [("CycleCount", some (.int 142))]).cycle_count = some (.int 142) := by
  decide

/-- C2 counterexample: with the maximum capacity absent (and likewise when it
is zero), `calculate_battery_percentage` returns the substitute value 0.0
rather than leaving the percentage absent as claimed. -/
theorem c2_percentage_substitute_counterexample :
    calculate_battery_percentage { BatteryData.blank with current_capacity := some "500" } = 0 ∧
    calculate_battery_percentage
      { BatteryData.blank with current_capacity := some "500", max_capacity := some "0" } = 0 := by
  constructor <;> decide

/-- C2 as amended: when the parsed maximum capacity is positive the charge
percentage is `round(current / max * 100, 1)`, and when it is zero or the
capture is absent/non-numeric the function returns the substitute 0.0 (so a
division by zero still never occurs). -/
theorem c2_percentage_spec (b : BatteryData) :
    calculate_battery_percentage b =
      (if get_int b.max_capacity = 0 then 0
       else pyRound1 ((get_int b.current_capacity : ℚ) / (get_int b.max_capacity : ℚ) * 100)) := by
  unfold calculate_battery_percentage
  by_cases h : get_int b.max_capacity = 0
  · simp [h]
  · simp only [h, if_false]
    congr 1
    ring

/-- Closed instance of C2 as amended: 500 of 1000 mAh is 50.0 percent. -/
theorem c2_percentage_spec_witness :
    calculate_battery_percentage
        { BatteryData.blank with current_capacity := some "500", max_capacity := some "1000" } =
      (if get_int (some "1000") = 0 then 0
       else pyRound1 ((get_int (some "500") : ℚ) / (get_int (some "1000") : ℚ) * 100)) :=
  c2_percentage_spec
    { BatteryData.blank with current_capacity := some "500", max_capacity := some "1000" }

/-- The pmset capture of the end-to-end scenario of C3. -/
def pmsetSample : String :=
  "Now drawing from 'AC Power'\n-InternalBattery-0 (id=123) 85%; charging; 1:04 remaining present: true"

/-- C3 counterexample: on the scenario capture the time-remaining field is
not the claimed "1:04 remaining" — the greedy `[^;]*` tail of the pattern
also captures " present: true". -/
theorem c3_time_remaining_counterexample :
    (parse_pmset (some pmsetSample)).time_remaining ≠ some "1:04 remaining" := by
  decide

/-- C3 as amended: the scenario capture parses to status "charging" and
percentage "85" as claimed, but the time-remaining field is
"1:04 remaining present: true". -/
theorem c3_parse_pmset_sample :
    (parse_pmset (some pmsetSample)).status = some "charging" ∧
    (parse_pmset (some pmsetSample)).percent = some "85" ∧
    (parse_pmset (some pmsetSample)).time_remaining = some "1:04 remaining present: true" := by
  refine ⟨by decide, by decide, by decide⟩

/-- C8 counterexample: the packaged variant's classifier tests is-charging
before the fully-charged flag, so with all three flags "Yes" it reports
"Charging" where the claimed order requires "fully charged"; and the iOS
classifier's fallback label is "Unknown", not the claimed "unknown". -/
theorem c8_status_order_counterexample :
    (get_battery_status
        { BatteryData.blank with
            is_charging := some "Yes", external_connected := some "Yes",
            fully_charged := some "Yes" }).2 = "Charging" ∧
    "Charging" ≠ "fully charged" ∧
    ios_status_classify none none none = "Unknown" ∧
    "Unknown" ≠ "unknown" := by
  refine ⟨by decide, by decide, by decide, by decide⟩

/-- C8 as amended: the iOS-view classifier follows the claimed order —
fully-charged first, then is-charging true/false, then external power — with
fallback label "Unknown"; the packaged variant's `get_battery_status`
instead tests is-charging first and reports a full battery only while
external power is connected. -/
theorem c8_status_classify_spec :
    (∀ ic ec, ios_status_classify (some true) ic ec = "fully charged") ∧
    (∀ fc ic ec, fc ≠ some true → ic = some true → ios_status_classify fc ic ec = "charging") ∧
    (∀ fc ec, fc ≠ some true → ios_status_classify fc (some false) ec = "discharging") ∧
    (∀ fc, fc ≠ some true → ios_status_classify fc none (some true) = "connected") ∧
    (∀ fc ec, fc ≠ some true → ec ≠ some true → ios_status_classify fc none ec = "Unknown") ∧
    (∀ b : BatteryData, get_str b.is_charging = "Yes" → (get_battery_status b).2 = "Charging") ∧
    (∀ b : BatteryData, get_str b.is_charging ≠ "Yes" → get_str b.external_connected = "Yes" →
      get_str b.fully_charged = "Yes" → (get_battery_status b).2 = "Fully Charged") := by
  refine ⟨fun ic ec => rfl, fun fc ic ec h1 h2 => ?_, fun fc ec h1 => ?_,
    fun fc h1 => ?_, fun fc ec h1 h2 => ?_, fun b h1 => ?_, fun b h1 h2 h3 => ?_⟩
  · simp [ios_status_classify, h1, h2]
  · simp [ios_status_classify, h1]
  · simp [ios_status_classify, h1]
  · simp [ios_status_classify, h1, h2]
  · simp [get_battery_status, h1]
  · simp [get_battery_status, h1, h2, h3]

/-- Closed instances of C8 as amended, one per classifier branch. -/
theorem c8_status_classify_spec_witness :
    ios_status_classify (some true) (some true) none = "fully charged" ∧
    ios_status_classify none (some true) none = "charging" ∧
    ios_status_classify (some false) (some false) none = "discharging" ∧
    ios_status_classify none none (some true) = "connected" ∧
    ios_status_classify none none none = "Unknown" ∧
    (get_battery_status { BatteryData.blank with is_charging := some "Yes" }).2 = "Charging" ∧
    (get_battery_status
        { BatteryData.blank with
            external_connected := some "Yes", fully_charged := some "Yes" }).2 = "Fully Charged" :=
  ⟨c8_status_classify_spec.1 (some true) none,
   c8_status_classify_spec.2.1 none (some true) none (by decide) rfl,
   c8_status_classify_spec.2.2.1 (some false) none (by decide),
   c8_status_classify_spec.2.2.2.1 none (by decide),
   c8_status_classify_spec.2.2.2.2.1 none none (by decide) (by decide),
   c8_status_classify_spec.2.2.2.2.2.1 _ (by decide),
   c8_status_classify_spec.2.2.2.2.2.2 _ (by decide) (by decide) (by decide)⟩

/-- C4 counterexample: the wattage guard tests the two charger-flag entries
for Python truthiness, so the non-empty string "FALSE" (the literal shape the
structured report delivers) counts as connected: with the charging flag
"FALSE", the connected flag absent, and a positive 500 mA, a wattage of
6.0 W is produced although the claim requires both flags false/absent to
yield none. -/
theorem c4_truthy_flag_counterexample :
    (enrich_with_ioreg { Detail.blank with charger_is_charging := some (.str "FALSE") }
        [("Voltage", some (.int 12000)), ("Amperage", some (.int 500))]).charging_watts =
      some (.float 6) ∧
    ({ Detail.blank with charger_is_charging := some (.str "FALSE") } : Detail).charger_connected
      = none := by
  refine ⟨by with_unfolding_all rfl, rfl⟩

/-- C4 as amended: the live wattage is `round(voltage * amperage / 1e6, 1)`
and is produced exactly when the ioreg-derived amperage is strictly positive
and at least one of the two merged charger-flag entries is truthy in
Python's sense (so booleans behave as claimed, but any non-empty string —
including "FALSE" — also enables the computation); a non-positive or absent
amperage never yields a wattage, and with both flag entries non-truthy none
is produced either. -/
theorem c4_charging_watts_spec :
    (∀ (d : Detail) (io : Bag) (v a : ℤ), io.isEmpty = false →
      to_int (pyOr (dictGet io "Voltage") (dictGet io "AppleRawBatteryVoltage")) = some v →
      to_int_signed_64 (pyOr (dictGet io "Amperage") (dictGet io "InstantAmperage")) = some a →
      0 < a →
      (pyTruthyOpt (set_if_absent d.charger_is_charging (dictGet io "IsCharging")) = true ∨
       pyTruthyOpt (set_if_absent d.charger_connected (dictGet io "ExternalConnected")) = true) →
      (enrich_with_ioreg d io).charging_watts =
        some (.float (pyRound1 ((v : ℚ) * (a : ℚ) / 1000000)))) ∧
    (∀ (d : Detail) (io : Bag), d.charging_watts = none →
      Option.all (fun a => decide (a ≤ 0))
        (to_int_signed_64 (pyOr (dictGet io "Amperage") (dictGet io "InstantAmperage"))) = true →
      (enrich_with_ioreg d io).charging_watts = none) ∧
    (∀ (d : Detail) (io : Bag), d.charging_watts = none →
      pyTruthyOpt (set_if_absent d.charger_is_charging (dictGet io "IsCharging")) = false →
      pyTruthyOpt (set_if_absent d.charger_connected (dictGet io "ExternalConnected")) = false →
      (enrich_with_ioreg d io).charging_watts = none) := by
  refine ⟨fun d io v a hio hv ha hpos hfl => ?_, fun d io hd hall => ?_, fun d io hd h1 h2 => ?_⟩
  · unfold enrich_with_ioreg
    rw [if_neg (by simp [hio])]
    simp only [hv, ha]
    simp [hpos, hfl, set_if_absent_some]
  · by_cases hio : io.isEmpty = true
    · simp [enrich_with_ioreg, hio, hd]
    · unfold enrich_with_ioreg
      rw [if_neg hio]
      rcases hvolt : to_int (pyOr (dictGet io "Voltage") (dictGet io "AppleRawBatteryVoltage"))
        with _ | v <;>
        rcases hamp : to_int_signed_64 (pyOr (dictGet io "Amperage") (dictGet io "InstantAmperage"))
          with _ | a <;>
          simp only [hvolt, hamp, hd]
      rw [hamp] at hall
      simp only [Option.all] at hall
      rw [if_neg]
      rintro ⟨h0, -⟩
      exact absurd h0 (not_lt.mpr (of_decide_eq_true hall))
  · by_cases hio : io.isEmpty = true
    · simp [enrich_with_ioreg, hio, hd]
    · unfold enrich_with_ioreg
      rw [if_neg hio]
      rcases hvolt : to_int (pyOr (dictGet io "Voltage") (dictGet io "AppleRawBatteryVoltage"))
        with _ | v <;>
        rcases hamp : to_int_signed_64 (pyOr (dictGet io "Amperage") (dictGet io "InstantAmperage"))
          with _ | a <;>
          simp only [hvolt, hamp, hd]
      rw [if_neg]
      rintro ⟨-, hor | hor⟩
      · rw [h1] at hor; cases hor
      · rw [h2] at hor; cases hor

/-- Closed instances of C4 as amended: 12000 mV at 500 mA while charging
gives 6.0 W; −200 mA gives none even while charging; 500 mA with both flag
entries non-truthy gives none. -/
theorem c4_charging_watts_spec_witness :
    (enrich_with_ioreg { Detail.blank with charger_is_charging := some (.bool true) }
        [("Voltage", some (.int 12000)), ("Amperage", some (.int 500))]).charging_watts =
      some (.float (pyRound1 ((12000 : ℚ) * (500 : ℚ) / 1000000))) ∧
    pyRound1 ((12000 : ℚ) * (500 : ℚ) / 1000000) = 6 ∧
    (enrich_with_ioreg { Detail.blank with charger_is_charging := some (.bool true) }
        [("Voltage", some (.int 12000)), ("Amperage", some (.int (-200)))]).charging_watts
      = none ∧
    (enrich_with_ioreg { Detail.blank with charger_is_charging := some (.bool false) }
        [("Voltage", some (.int 12000)), ("Amperage", some (.int 500))]).charging_watts
      = none :=
  ⟨c4_charging_watts_spec.1 _ _ 12000 500 rfl (by decide) (by decide) (by decide)
      (Or.inl (by decide)),
   by with_unfolding_all rfl,
   c4_charging_watts_spec.2.1 _ _ rfl (by decide),
   c4_charging_watts_spec.2.2 _ _ rfl (by decide) (by decide)⟩

/-- C5 counterexample: the packaged variant's displayed Celsius temperature
is `raw / 100` with no Kelvin offset, so the raw register value 3000 is
shown as 30.0 °C there, not the claimed `round(3000/10 − 273.15, 1) =
26.9`. -/
theorem c5_display_temp_counterexample :
    display_simple_temp_c { BatteryData.blank with temperature := some "3000" } = 30 ∧
    (30 : ℚ) ≠ pyRound1 ((3000 : ℚ) / 10 - float273_15) := by
  constructor
  · with_unfolding_all rfl
  · have h : pyRound1 ((3000 : ℚ) / 10 - float273_15) = 269 / 10 := by
      with_unfolding_all rfl
    rw [h]
    norm_num

/-- C5 as amended: in the register-dump enrichment pass the derived Celsius
temperature of a non-zero raw value `t` is `round(t/10 − 273.15, 1)` (with
273.15 taken at its binary64 value), and the raw value 3000 rounds to
26.9 °C; the packaged variant's display path instead divides the raw value
by 100 with no Kelvin offset. -/
theorem c5_temperature_spec :
    (∀ (d : Detail) (io : Bag) (t : ℤ), io.isEmpty = false →
      dictGet io "Temperature" = some (.int t) → t ≠ 0 →
      (enrich_with_ioreg d io).temperature_c =
        some (.float (pyRound1 ((t : ℚ) / 10 - float273_15)))) ∧
    pyRound1 ((3000 : ℚ) / 10 - float273_15) = 269 / 10 ∧
    (∀ b : BatteryData, display_simple_temp_c b = get_float b.temperature / 100) := by
  refine ⟨fun d io t hio htemp ht => ?_, by with_unfolding_all rfl, fun b => rfl⟩
  unfold enrich_with_ioreg
  rw [if_neg (by simp [hio])]
  have hor : pyOr (dictGet io "Temperature") (dictGet io "VirtualTemperature") = some (.int t) := by
    simp [pyOr, htemp, pyTruthyOpt, pyTruthy, ht]
  simp [hor, set_if_absent_some]

/-- Closed instance of C5 as amended, at the claimed raw value 3000. -/
theorem c5_temperature_spec_witness :
    (enrich_with_ioreg Detail.blank [("Temperature", some (.int 3000))]).temperature_c =
      some (.float (pyRound1 ((3000 : ℚ) / 10 - float273_15))) :=
  c5_temperature_spec.1 Detail.blank [("Temperature", some (.int 3000))] 3000 rfl (by decide)
    (by decide)

/-- C10: the register-dump enrichment pass never erases information — every
record field that is non-null before `enrich_with_ioreg` is still non-null
afterwards, because the merge helper skips null candidates and an empty bag
returns the record unchanged. -/
theorem c10_enrich_never_erases (d : Detail) (io : Bag) :
    d.current_capacity.isSome ≤ (enrich_with_ioreg d io).current_capacity.isSome ∧
    d.max_capacity.isSome ≤ (enrich_with_ioreg d io).max_capacity.isSome ∧
    d.design_capacity.isSome ≤ (enrich_with_ioreg d io).design_capacity.isSome ∧
    d.fully_charged.isSome ≤ (enrich_with_ioreg d io).fully_charged.isSome ∧
    d.is_charging.isSome ≤ (enrich_with_ioreg d io).is_charging.isSome ∧
    d.cycle_count.isSome ≤ (enrich_with_ioreg d io).cycle_count.isSome ∧
    d.health.isSome ≤ (enrich_with_ioreg d io).health.isSome ∧
    d.health_pct.isSome ≤ (enrich_with_ioreg d io).health_pct.isSome ∧
    d.battery_serial.isSome ≤ (enrich_with_ioreg d io).battery_serial.isSome ∧
    d.voltage_mV.isSome ≤ (enrich_with_ioreg d io).voltage_mV.isSome ∧
    d.amperage_mA.isSome ≤ (enrich_with_ioreg d io).amperage_mA.isSome ∧
    d.temperature_c.isSome ≤ (enrich_with_ioreg d io).temperature_c.isSome ∧
    d.manufacture_date.isSome ≤ (enrich_with_ioreg d io).manufacture_date.isSome ∧
    d.charging_watts.isSome ≤ (enrich_with_ioreg d io).charging_watts.isSome ∧
    d.charger_name.isSome ≤ (enrich_with_ioreg d io).charger_name.isSome ∧
    d.charger_watts.isSome ≤ (enrich_with_ioreg d io).charger_watts.isSome ∧
    d.charger_manufacturer.isSome ≤ (enrich_with_ioreg d io).charger_manufacturer.isSome ∧
    d.charger_serial.isSome ≤ (enrich_with_ioreg d io).charger_serial.isSome ∧
    d.charger_connected.isSome ≤ (enrich_with_ioreg d io).charger_connected.isSome ∧
    d.charger_is_charging.isSome ≤ (enrich_with_ioreg d io).charger_is_charging.isSome := by
  by_cases hio : io.isEmpty = true
  · simp [enrich_with_ioreg, hio]
  · unfold enrich_with_ioreg
    rw [if_neg hio]
    refine ⟨?_, ?_, ?_, ?_, ?_, ?_, ?_, ?_, ?_, ?_, ?_, ?_, ?_, ?_, ?_, ?_, ?_, ?_, ?_, ?_⟩ <;>
      dsimp only <;> (repeat' split) <;>
      first
        | exact le_refl _
        | exact isSome_le_set_if_absent _ _

end Batstat
